import Mathlib

/-!
Verification of the tool-chaining engine of the github_automation_tool
repository.  The development shallowly embeds the data model of
src/tool_contracts.py, the tool registry of src/intent_classification.py,
and the execution engine of src/tool_execution_engine.py.

Modelling conventions, stated once here:
* Python dictionaries with string keys are embedded as association lists
  with insertion-order semantics (`Params`); `dict.update` is modelled by
  `dictUpdate`, which overwrites existing keys in place and appends new
  keys at the end, exactly as CPython does.
* JSON-shaped Python values (the `Any`-typed `payload`, tool parameters,
  response bodies) are embedded as the inductive `Json` tree.  Python
  `None` is `Json.null`.  The textual JSON layer (`json.dumps` and the
  pydantic string codecs) is an injective encoding of these trees, so
  serialization round-trips are stated at the tree level.
* Python floats appear only in the informational `confidence` field
  (default 1.0, never read by the engine); the field is embedded as an
  integer to stay inside exact arithmetic.
* `datetime` values are carried as opaque ISO strings; values produced by
  `default_factory` (fresh uuid4 identifiers, `datetime.utcnow`) are
  abstracted as named opaque constants, since no modelled code path ever
  inspects them.
* Exceptions raised and caught inside the engine are modelled by `Option`
  and `Except` results; an exception that escapes a modelled entry point is
  a distinguished constructor (`WorkflowOutcome.raised`).
-/

set_option linter.unusedVariables false

/-- JSON-shaped Python values: the payloads, parameter dictionaries and
response bodies the engine passes around.  `null` is Python `None`. -/
inductive Json where
  | null : Json
  | bool (b : Bool) : Json
  | num (n : Int) : Json
  | str (s : String) : Json
  | arr (elems : List Json) : Json
  | obj (fields : List (String × Json)) : Json

/-- A Python `Dict[str, Any]` with insertion order, e.g. tool parameters. -/
abbrev Params := List (String × Json)

/-- Model of CPython `d[k] = v` on an insertion-ordered dict: overwrite the
existing binding in place, otherwise append the new binding at the end. -/
def dictInsert (d : Params) (k : String) (v : Json) : Params :=
  if d.any (fun p => p.1 = k) then
    d.map (fun p => if p.1 = k then (k, v) else p)
  else
    d ++ [(k, v)]

/-- Model of CPython `d.update(u)` and of the merge `{**d, **u}`: bindings
of `u` win on key collision, insertion order of `d` is kept. -/
def dictUpdate (d : Params) (u : Params) : Params :=
  u.foldl (fun acc p => dictInsert acc p.1 p.2) d

/-- Whether `pat` is an initial segment of `hay` (character lists). -/
def leadMatch : List Char → List Char → Bool
  | _, [] => true
  | [], _ :: _ => false
  | h :: hs, p :: ps => h == p && leadMatch hs ps

/-- Whether `pat` occurs contiguously in `hay` (character lists). -/
def subMatch : List Char → List Char → Bool
  | hay, pat =>
      leadMatch hay pat ||
        (match hay with
         | [] => false
         | _ :: hs => subMatch hs pat)

/-- Model of the Python substring test `pat in hay` on strings. -/
def strContains (hay pat : String) : Bool :=
  subMatch hay.data pat.data

/-- Model of Python `str.lower()` (ASCII suffices for the keyword table). -/
def strLower (s : String) : String :=
  String.mk (s.data.map Char.toLower)

/-- ToolType from src/tool_contracts.py lines 8-16. -/
inductive ToolType where
  | CREATOR
  | ANALYZER
  | MODIFIER
  | RETRIEVER
  | VALIDATOR
  | EXECUTOR
  | REPORTER
deriving DecidableEq, Repr

/-- Integer value of each ToolType member, as declared in the Python enum. -/
def ToolType.value : ToolType → Int
  | .CREATOR => 0
  | .ANALYZER => 1
  | .MODIFIER => 2
  | .RETRIEVER => 3
  | .VALIDATOR => 4
  | .EXECUTOR => 5
  | .REPORTER => 6

/-- Inverse lookup used when pydantic validates a ToolType from its value. -/
def ToolType.ofValue? : Int → Option ToolType
  | 0 => some .CREATOR
  | 1 => some .ANALYZER
  | 2 => some .MODIFIER
  | 3 => some .RETRIEVER
  | 4 => some .VALIDATOR
  | 5 => some .EXECUTOR
  | 6 => some .REPORTER
  | _ => none

/-- ToolExecutionStatus from src/tool_contracts.py lines 18-22. -/
inductive ToolExecutionStatus where
  | Processing
  | Complete
  | Failed
deriving DecidableEq, Repr

/-- UserContextInfo from src/tool_contracts.py lines 24-27 (both fields
default to the empty string). -/
structure UserContextInfo where
  userId : String
  sessionId : String
deriving DecidableEq, Repr

/-- ContentSummary from src/tool_contracts.py lines 29-32. -/
structure ContentSummary where
  fields : List String
  recordCount : Int
deriving DecidableEq, Repr

/-- SuggestedToolReference from src/tool_contracts.py lines 34-40: a tagged
follow-up suggestion; every field except `toolType` defaults to None. -/
structure SuggestedToolReference where
  toolType : ToolType
  toolNameHint : Option String
  reason : Option String
  parameters : Option Params
  outputLabel : Option String

/-- ToolMetadata from src/tool_contracts.py lines 42-52.  `confidence` is a
Python float (default 1.0) embedded as an integer, see the header note. -/
structure ToolMetadata where
  dataType : String
  dataSize : Int
  intent : String
  description : String
  accessibility : String
  requiresPostProcessing : Bool
  suggestedTools : List SuggestedToolReference
  contentSummary : Option ContentSummary
  confidence : Int

/-- ToolResult from src/tool_contracts.py lines 54-65.  `timestamp` is the
ISO rendering of the `datetime` field; `payload` is the opaque `Any` field
(`Json.null` when the Python value is `None`). -/
structure ToolResult where
  toolResultId : String
  toolName : String
  timestamp : String
  conversationId : Option String
  conversationMessageId : Option String
  userContext : Option UserContextInfo
  metadata : ToolMetadata
  payload : Json
  stepIndex : Int
  parentToolResultId : Option String

/-- ToolResult.status property, src/tool_contracts.py lines 67-70. -/
def ToolResult.status (r : ToolResult) : ToolExecutionStatus :=
  if r.metadata.requiresPostProcessing then
    ToolExecutionStatus.Processing
  else
    ToolExecutionStatus.Complete

/-- Opaque stand-in for a `str(uuid.uuid4())` produced by a pydantic
`default_factory`; unreachable when parsing serializer output, which always
carries the field. -/
def freshUuidString : String := "uuid4-fresh"

/-- Opaque stand-in for a `datetime.utcnow()` produced by a pydantic
`default_factory`; unreachable when parsing serializer output. -/
def freshTimestampString : String := "utcnow-fresh"

/-- Serialization of UserContextInfo by `model_dump_json`; both fields are
plain strings, so `exclude_none` never removes anything here. -/
def UserContextInfo.toJsonValue (u : UserContextInfo) : Json :=
  Json.obj [("userId", Json.str u.userId), ("sessionId", Json.str u.sessionId)]

/-- Serialization of ContentSummary by `model_dump_json`. -/
def ContentSummary.toJsonValue (c : ContentSummary) : Json :=
  Json.obj [("fields", Json.arr (c.fields.map Json.str)),
            ("recordCount", Json.num c.recordCount)]

/-- Serialization of SuggestedToolReference by `model_dump_json` with
`exclude_none=True`: optional fields holding None are omitted. -/
def SuggestedToolReference.toJsonValue (s : SuggestedToolReference) : Json :=
  Json.obj ([("toolType", Json.num s.toolType.value)]
    ++ (match s.toolNameHint with | none => [] | some v => [("toolNameHint", Json.str v)])
    ++ (match s.reason with | none => [] | some v => [("reason", Json.str v)])
    ++ (match s.parameters with | none => [] | some ps => [("parameters", Json.obj ps)])
    ++ (match s.outputLabel with | none => [] | some v => [("outputLabel", Json.str v)]))

/-- Serialization of ToolMetadata by `model_dump_json` with
`exclude_none=True`. -/
def ToolMetadata.toJsonValue (m : ToolMetadata) : Json :=
  Json.obj ([("dataType", Json.str m.dataType),
             ("dataSize", Json.num m.dataSize),
             ("intent", Json.str m.intent),
             ("description", Json.str m.description),
             ("accessibility", Json.str m.accessibility),
             ("requiresPostProcessing", Json.bool m.requiresPostProcessing),
             ("suggestedTools", Json.arr (m.suggestedTools.map SuggestedToolReference.toJsonValue))]
    ++ (match m.contentSummary with | none => [] | some c => [("contentSummary", c.toJsonValue)])
    ++ [("confidence", Json.num m.confidence)])

/-- Serialization of ToolResult by `ToolResult.to_json`
(src/tool_contracts.py lines 72-74): `model_dump_json(exclude_none=True)`.
Fields appear in declaration order; optional fields holding None are
omitted, and so is the required `Any` field `payload` when its value is
None. -/
def ToolResult.toJsonValue (r : ToolResult) : Json :=
  Json.obj ([("toolResultId", Json.str r.toolResultId),
             ("toolName", Json.str r.toolName),
             ("timestamp", Json.str r.timestamp)]
    ++ (match r.conversationId with | none => [] | some v => [("conversationId", Json.str v)])
    ++ (match r.conversationMessageId with | none => [] | some v => [("conversationMessageId", Json.str v)])
    ++ (match r.userContext with | none => [] | some u => [("userContext", u.toJsonValue)])
    ++ [("metadata", r.metadata.toJsonValue)]
    ++ (match r.payload with | Json.null => [] | p => [("payload", p)])
    ++ [("stepIndex", Json.num r.stepIndex)]
    ++ (match r.parentToolResultId with | none => [] | some v => [("parentToolResultId", Json.str v)]))

/-- Model of pydantic field lookup in a validated JSON object: the first
binding of the key, if any. -/
def getField : List (String × Json) → String → Option Json
  | [], _ => none
  | (k, v) :: rest, key => if k = key then some v else getField rest key

/-- Validation of a required string field. -/
def decodeReqStr (fields : List (String × Json)) (key : String) : Except String String :=
  match getField fields key with
  | some (Json.str s) => Except.ok s
  | some _ => Except.error (key ++ ": Input should be a valid string")
  | none => Except.error (key ++ ": Field required")

/-- Validation of a string field with a default for a missing key. -/
def decodeStrD (fields : List (String × Json)) (key : String) (dflt : String) :
    Except String String :=
  match getField fields key with
  | none => Except.ok dflt
  | some (Json.str s) => Except.ok s
  | some _ => Except.error (key ++ ": Input should be a valid string")

/-- Validation of an `Optional[str]` field (missing or null become None). -/
def decodeOptStr (fields : List (String × Json)) (key : String) :
    Except String (Option String) :=
  match getField fields key with
  | none => Except.ok none
  | some Json.null => Except.ok none
  | some (Json.str s) => Except.ok (some s)
  | some _ => Except.error (key ++ ": Input should be a valid string")

/-- Validation of an integer field with a default for a missing key. -/
def decodeIntD (fields : List (String × Json)) (key : String) (dflt : Int) :
    Except String Int :=
  match getField fields key with
  | none => Except.ok dflt
  | some (Json.num n) => Except.ok n
  | some _ => Except.error (key ++ ": Input should be a valid integer")

/-- Validation of a boolean field with a default for a missing key. -/
def decodeBoolD (fields : List (String × Json)) (key : String) (dflt : Bool) :
    Except String Bool :=
  match getField fields key with
  | none => Except.ok dflt
  | some (Json.bool b) => Except.ok b
  | some _ => Except.error (key ++ ": Input should be a valid boolean")

/-- Validation of an `Optional[Dict[str, Any]]` field. -/
def decodeOptParams (fields : List (String × Json)) (key : String) :
    Except String (Option Params) :=
  match getField fields key with
  | none => Except.ok none
  | some Json.null => Except.ok none
  | some (Json.obj ps) => Except.ok (some ps)
  | some _ => Except.error (key ++ ": Input should be a valid dictionary")

/-- Validation of a `List[str]` value. -/
def decodeStringList : List Json → Except String (List String)
  | [] => Except.ok []
  | Json.str s :: rest => do
      let ss ← decodeStringList rest
      Except.ok (s :: ss)
  | _ :: _ => Except.error "fields: Input should be a valid string"

/-- Validation of a SuggestedToolReference by `model_validate`. -/
def SuggestedToolReference.fromJsonValue (j : Json) :
    Except String SuggestedToolReference :=
  match j with
  | Json.obj fields => do
      let toolType ← (match getField fields "toolType" with
        | some (Json.num n) =>
            (match ToolType.ofValue? n with
             | some t => Except.ok t
             | none => Except.error "toolType: Input should be a valid ToolType")
        | some _ => Except.error "toolType: Input should be a valid ToolType"
        | none => Except.error "toolType: Field required")
      let toolNameHint ← decodeOptStr fields "toolNameHint"
      let reason ← decodeOptStr fields "reason"
      let parameters ← decodeOptParams fields "parameters"
      let outputLabel ← decodeOptStr fields "outputLabel"
      Except.ok ⟨toolType, toolNameHint, reason, parameters, outputLabel⟩
  | _ => Except.error "SuggestedToolReference: Input should be an object"

/-- Validation of a `List[SuggestedToolReference]` value. -/
def decodeSuggestionList : List Json → Except String (List SuggestedToolReference)
  | [] => Except.ok []
  | j :: rest => do
      let s ← SuggestedToolReference.fromJsonValue j
      let ss ← decodeSuggestionList rest
      Except.ok (s :: ss)

/-- Validation of a ContentSummary by `model_validate`. -/
def ContentSummary.fromJsonValue (j : Json) : Except String ContentSummary :=
  match j with
  | Json.obj fields => do
      let fs ← (match getField fields "fields" with
        | none => Except.ok []
        | some (Json.arr xs) => decodeStringList xs
        | some _ => Except.error "fields: Input should be a valid list")
      let recordCount ← decodeIntD fields "recordCount" 0
      Except.ok ⟨fs, recordCount⟩
  | _ => Except.error "ContentSummary: Input should be an object"

/-- Validation of a UserContextInfo by `model_validate`. -/
def UserContextInfo.fromJsonValue (j : Json) : Except String UserContextInfo :=
  match j with
  | Json.obj fields => do
      let userId ← decodeStrD fields "userId" ""
      let sessionId ← decodeStrD fields "sessionId" ""
      Except.ok ⟨userId, sessionId⟩
  | _ => Except.error "UserContextInfo: Input should be an object"

/-- Validation of a ToolMetadata by `model_validate`: `intent` and
`description` are required, everything else has a declared default. -/
def ToolMetadata.fromJsonValue (j : Json) : Except String ToolMetadata :=
  match j with
  | Json.obj fields => do
      let dataType ← decodeStrD fields "dataType" "application/json"
      let dataSize ← decodeIntD fields "dataSize" 0
      let intent ← decodeReqStr fields "intent"
      let description ← decodeReqStr fields "description"
      let accessibility ← decodeStrD fields "accessibility" "public"
      let requiresPostProcessing ← decodeBoolD fields "requiresPostProcessing" false
      let suggestedTools ← (match getField fields "suggestedTools" with
        | none => Except.ok []
        | some (Json.arr xs) => decodeSuggestionList xs
        | some _ => Except.error "suggestedTools: Input should be a valid list")
      let contentSummary ← (match getField fields "contentSummary" with
        | none => Except.ok none
        | some Json.null => Except.ok none
        | some c => (ContentSummary.fromJsonValue c).map some)
      let confidence ← decodeIntD fields "confidence" 1
      Except.ok ⟨dataType, dataSize, intent, description, accessibility,
                 requiresPostProcessing, suggestedTools, contentSummary, confidence⟩
  | _ => Except.error "ToolMetadata: Input should be an object"

/-- Validation of a ToolResult by `ToolResult.from_json`
(src/tool_contracts.py lines 76-79) and by the `model_validate` call in
ToolExecutor.execute_tool.  `toolName`, `metadata` and `payload` are
required; `payload` in particular has no default, so a body without a
`payload` key is rejected. -/
def ToolResult.fromJsonValue (j : Json) : Except String ToolResult :=
  match j with
  | Json.obj fields => do
      let toolResultId ← decodeStrD fields "toolResultId" freshUuidString
      let toolName ← decodeReqStr fields "toolName"
      let timestamp ← decodeStrD fields "timestamp" freshTimestampString
      let conversationId ← decodeOptStr fields "conversationId"
      let conversationMessageId ← decodeOptStr fields "conversationMessageId"
      let userContext ← (match getField fields "userContext" with
        | none => Except.ok none
        | some Json.null => Except.ok none
        | some u => (UserContextInfo.fromJsonValue u).map some)
      let metadata ← (match getField fields "metadata" with
        | none => Except.error "metadata: Field required"
        | some m => ToolMetadata.fromJsonValue m)
      let payload ← (match getField fields "payload" with
        | none => Except.error "payload: Field required"
        | some p => Except.ok p)
      let stepIndex ← decodeIntD fields "stepIndex" 0
      let parentToolResultId ← decodeOptStr fields "parentToolResultId"
      Except.ok ⟨toolResultId, toolName, timestamp, conversationId,
                 conversationMessageId, userContext, metadata, payload,
                 stepIndex, parentToolResultId⟩
  | _ => Except.error "ToolResult: Input should be an object"

/-- ExecutionStrategy from src/tool_execution_engine.py lines 19-24. -/
inductive ExecutionStrategy where
  | SEQUENTIAL
  | PARALLEL
  | CONDITIONAL
  | INTERACTIVE
deriving DecidableEq, Repr

/-- An entry of `context.errors`.  ToolExecutor.execute_tool records two
shapes of dictionaries: `{tool, error, details}` after a non-200 response
(src/tool_execution_engine.py lines 103-108) and `{tool, error, type}`
after a caught exception (lines 113-117). -/
inductive ErrorEntry where
  | http (tool : String) (error : String) (details : String)
  | exn (tool : String) (error : String) (ty : String)
deriving DecidableEq, Repr

/-- Tool name of an error entry (the `tool` key of either dictionary). -/
def ErrorEntry.toolOf : ErrorEntry → String
  | .http t _ _ => t
  | .exn t _ _ => t

/-- ToolExecutionContext from src/tool_execution_engine.py lines 26-49.
The wall-clock `start_time` and the unused free-form `metadata` dict are
not modelled; `execution_id` is the abstracted fresh uuid. -/
structure ToolExecutionContext where
  conversationId : String
  userId : String
  sessionId : String
  executionId : String
  results : List ToolResult
  errors : List ErrorEntry

/-- ToolExecutionContext.add_result (append). -/
def ToolExecutionContext.addResult (ctx : ToolExecutionContext) (r : ToolResult) :
    ToolExecutionContext :=
  { ctx with results := ctx.results ++ [r] }

/-- ToolExecutionContext.add_error (append). -/
def ToolExecutionContext.addError (ctx : ToolExecutionContext) (e : ErrorEntry) :
    ToolExecutionContext :=
  { ctx with errors := ctx.errors ++ [e] }

/-- ToolExecutionContext.get_last_result. -/
def ToolExecutionContext.getLastResult (ctx : ToolExecutionContext) : Option ToolResult :=
  ctx.results.getLast?

/-- The pure fields of ToolExecutionContext.get_execution_summary
(src/tool_execution_engine.py lines 51-62); `start_time` and `duration`
are wall-clock readings and are not modelled. -/
structure ExecutionSummary where
  executionId : String
  conversationId : String
  totalToolsExecuted : Nat
  errors : Nat
  successful : Bool
  toolChain : List String
deriving DecidableEq, Repr

/-- ToolExecutionContext.get_execution_summary as a pure read. -/
def getExecutionSummary (ctx : ToolExecutionContext) : ExecutionSummary :=
  { executionId := ctx.executionId
    conversationId := ctx.conversationId
    totalToolsExecuted := ctx.results.length
    errors := ctx.errors.length
    successful := ctx.errors.length == 0
    toolChain := ctx.results.map (fun r => r.toolName) }

/-- The fields of a ToolIntent (src/intent_classification.py lines 16-27)
that the modelled engine reads: ToolExecutor.execute_tool consumes only
`intent_name`, `method` and `endpoint`; `tool_type` is kept as the
type tag of the registry.  The purely informational schema fields (category,
description, parameters, requires_auth, suggested_next_tools, examples)
are never read by src/tool_execution_engine.py and are omitted. -/
structure ToolIntent where
  intent_name : String
  endpoint : String
  method : String
  tool_type : ToolType
deriving DecidableEq, Repr

/-- INTENT_CLASSIFICATIONS from src/intent_classification.py lines 30-474,
restricted to the fields the engine reads, in dict insertion order. -/
def INTENT_CLASSIFICATIONS : List (String × ToolIntent) :=
  [("create_repository", ⟨"create_repository", "/github/create-repo", "POST", .CREATOR⟩),
   ("initialize_repository", ⟨"initialize_repository", "/repos/init", "POST", .CREATOR⟩),
   ("clone_repository", ⟨"clone_repository", "/repos/clone", "POST", .RETRIEVER⟩),
   ("create_branch", ⟨"create_branch", "/repos/create-branch", "POST", .CREATOR⟩),
   ("list_branches", ⟨"list_branches", "/github/list-branches/{repo_name}", "GET", .RETRIEVER⟩),
   ("merge_branches", ⟨"merge_branches", "/repos/merge", "POST", .MODIFIER⟩),
   ("add_file", ⟨"add_file", "/repos/add-file", "POST", .CREATOR⟩),
   ("add_multiple_files", ⟨"add_multiple_files", "/repos/add-files", "POST", .CREATOR⟩),
   ("list_files", ⟨"list_files", "/repos/list-files/{repo_path}", "GET", .RETRIEVER⟩),
   ("read_file", ⟨"read_file", "/repos/read-file/{repo_path}/{file_name}", "GET", .RETRIEVER⟩),
   ("commit_changes", ⟨"commit_changes", "/repos/commit", "POST", .EXECUTOR⟩),
   ("push_changes", ⟨"push_changes", "/repos/push", "POST", .EXECUTOR⟩),
   ("stage_all_changes", ⟨"stage_all_changes", "/repos/add-all", "POST", .MODIFIER⟩),
   ("create_issue", ⟨"create_issue", "/github/create-issue", "POST", .CREATOR⟩),
   ("create_pull_request", ⟨"create_pull_request", "/github/create-pr", "POST", .CREATOR⟩),
   ("list_repositories", ⟨"list_repositories", "/github/list-repos", "GET", .RETRIEVER⟩),
   ("setup_credentials", ⟨"setup_credentials", "/auth/setup", "POST", .MODIFIER⟩),
   ("generate_gitignore", ⟨"generate_gitignore", "/repos/generate-gitignore", "POST", .CREATOR⟩),
   ("check_status", ⟨"check_status", "/repos/status/{repo_path}", "GET", .ANALYZER⟩)]

/-- IntentClassifier.get_intent_by_name
(src/intent_classification.py lines 550-553): `INTENT_CLASSIFICATIONS.get`. -/
def getIntentByName (intentName : String) : Option ToolIntent :=
  List.lookup intentName INTENT_CLASSIFICATIONS

/-- Outcome of one `api_client.request` call as observed by
ToolExecutor.execute_tool: either a response object carrying
`status_code`, a JSON body (`response.json()`) and `response.text`, or a
raised exception carrying `str(e)` and `type(e).__name__`. -/
inductive ApiOutcome where
  | resp (status : Nat) (body : Json) (text : String)
  | raises (message : String) (ty : String)

/-- The injected transport: `api_client.request(method, endpoint, data,
headers)`.  The correlation headers are opaque pass-through identifiers
(spec section 6) and do not influence the modelled outcome, so the
transport is keyed on method, endpoint and data. -/
def Transport : Type := String → String → Params → ApiOutcome

/-- ToolExecutor.execute_tool, src/tool_execution_engine.py lines 71-118.
Every exception is caught by the enclosing `try` block: an unknown tool
name (the raised ValueError), a transport-level exception, and a
validation failure of the response body all append one `{tool, error,
type}` entry; a non-200 response appends one `{tool, error, details}`
entry; a 200 response whose body validates appends the parsed ToolResult
and returns it.  The total return type records that nothing escapes the
function as an exception. -/
def executeTool (t : Transport) (toolName : String) (parameters : Params)
    (ctx : ToolExecutionContext) : Option ToolResult × ToolExecutionContext :=
  match getIntentByName toolName with
  | none =>
      (none, ctx.addError (.exn toolName ("Unknown tool: " ++ toolName) "ValueError"))
  | some intent =>
      match t intent.method intent.endpoint parameters with
      | .raises message ty => (none, ctx.addError (.exn toolName message ty))
      | .resp status body text =>
          if status = 200 then
            match ToolResult.fromJsonValue body with
            | .ok r => (some r, ctx.addResult r)
            | .error e => (none, ctx.addError (.exn toolName e "ValidationError"))
          else
            (none, ctx.addError (.http toolName ("HTTP " ++ toString status) text))

/-- The string that the `toolNameHint` of a suggestion contributes to Python
truthiness tests (`if not tool_name`, `and suggestion.toolNameHint`):
None and the empty string are both falsy, so both are carried to "". -/
def SuggestedToolReference.hintString (s : SuggestedToolReference) : String :=
  s.toolNameHint.getD ""

/-- ToolChainExecutor._execute_sequential, src/tool_execution_engine.py
lines 170-189: try each suggestion in order, skip falsy name hints, stop
the batch after the first successful result that does not require
post-processing. -/
def executeSequentialImpl (t : Transport) :
    List SuggestedToolReference → ToolExecutionContext →
    List ToolResult × ToolExecutionContext
  | [], ctx => ([], ctx)
  | s :: rest, ctx =>
      if s.hintString = "" then
        executeSequentialImpl t rest ctx
      else
        match executeTool t s.hintString (s.parameters.getD []) ctx with
        | (none, ctx2) => executeSequentialImpl t rest ctx2
        | (some r, ctx2) =>
            if r.metadata.requiresPostProcessing then
              match executeSequentialImpl t rest ctx2 with
              | (rs, ctx3) => (r :: rs, ctx3)
            else
              ([r], ctx2)

/-- The task list ToolChainExecutor._execute_parallel builds
(src/tool_execution_engine.py lines 194-204): one pending
`execute_tool(toolNameHint, parameters or {}, context)` call per
suggestion whose type is RETRIEVER or ANALYZER and whose name hint is
truthy. -/
def buildParallelTasks : List SuggestedToolReference → List (String × Params)
  | [] => []
  | s :: rest =>
      if (s.toolType == ToolType.RETRIEVER || s.toolType == ToolType.ANALYZER)
          && s.hintString != "" then
        (s.hintString, s.parameters.getD []) :: buildParallelTasks rest
      else
        buildParallelTasks rest

/-- Model of `await asyncio.gather(*tasks)`: the outcome list of the
awaited calls, in task order, threading the shared context through the
calls.  (The event loop may interleave the underlying awaits; spec
section 5 declares the fine-grained append order of racing completions
unspecified, and no modelled property depends on it, so the model fixes
task order.) -/
def runGather (t : Transport) :
    List (String × Params) → ToolExecutionContext →
    List (Option ToolResult) × ToolExecutionContext
  | [], ctx => ([], ctx)
  | (name, ps) :: rest, ctx =>
      match executeTool t name ps ctx with
      | (res, ctx2) =>
          match runGather t rest ctx2 with
          | (os, ctx3) => (res :: os, ctx3)

/-- ToolChainExecutor._execute_parallel, src/tool_execution_engine.py
lines 191-210: gather the eligible tasks and drop the None outcomes
(`[r for r in results if r is not None]`). -/
def executeParallelImpl (t : Transport) (suggestedTools : List SuggestedToolReference)
    (ctx : ToolExecutionContext) : List ToolResult × ToolExecutionContext :=
  match buildParallelTasks suggestedTools with
  | [] => ([], ctx)
  | task :: tasks =>
      match runGather t (task :: tasks) ctx with
      | (os, ctx2) => (os.reduceOption, ctx2)

/-- ToolChainExecutor._evaluate_condition, src/tool_execution_engine.py
lines 232-254, including the vestigial `"if" in reason` branch (which,
like the final branch, returns True). -/
def evaluateCondition (s : SuggestedToolReference) (ctx : ToolExecutionContext) : Bool :=
  match ctx.getLastResult with
  | none => true
  | some lastResult =>
      if s.toolType == ToolType.MODIFIER
          && !lastResult.metadata.requiresPostProcessing then
        false
      else if s.toolType == ToolType.VALIDATOR then
        true
      else if (match s.reason with
               | some reason => strContains (strLower reason) "if"
               | none => false) then
        true
      else
        true

/-- ToolChainExecutor._execute_conditional, src/tool_execution_engine.py
lines 212-230: execute a suggestion when the condition holds and the name
hint is truthy; the condition is re-evaluated against the context as it
grows. -/
def executeConditionalImpl (t : Transport) :
    List SuggestedToolReference → ToolExecutionContext →
    List ToolResult × ToolExecutionContext
  | [], ctx => ([], ctx)
  | s :: rest, ctx =>
      let shouldExecute := evaluateCondition s ctx
      if shouldExecute && s.hintString != "" then
        match executeTool t s.hintString (s.parameters.getD []) ctx with
        | (some r, ctx2) =>
            match executeConditionalImpl t rest ctx2 with
            | (rs, ctx3) => (r :: rs, ctx3)
        | (none, ctx2) => executeConditionalImpl t rest ctx2
      else
        executeConditionalImpl t rest ctx

/-- Strategy dispatch in ToolChainExecutor.execute_chain,
src/tool_execution_engine.py lines 151-159; the INTERACTIVE strategy has
no handler, so the `else` branch yields an empty batch. -/
def dispatchStrategy (t : Transport) (strategy : ExecutionStrategy)
    (suggestedTools : List SuggestedToolReference) (ctx : ToolExecutionContext) :
    List ToolResult × ToolExecutionContext :=
  match strategy with
  | .SEQUENTIAL => executeSequentialImpl t suggestedTools ctx
  | .PARALLEL => executeParallelImpl t suggestedTools ctx
  | .CONDITIONAL => executeConditionalImpl t suggestedTools ctx
  | .INTERACTIVE => ([], ctx)

/-- ToolChainExecutor.max_chain_length as set in __init__
(src/tool_execution_engine.py line 125). -/
def defaultMaxChainLength : Nat := 10

/-- The while loop of ToolChainExecutor.execute_chain
(src/tool_execution_engine.py lines 138-166).  `remaining` is the fuel
`max_chain_length - chain_length`, which the loop condition keeps
nonnegative; `current_result` is a pydantic object and hence always
truthy.  The third component of the value counts how many times the loop
body is entered, the measure bounded by claim C1. -/
def executeChainAux (t : Transport) (strategy : ExecutionStrategy)
    (filterFunc : Option (SuggestedToolReference → Bool)) :
    Nat → ToolResult → List ToolResult → ToolExecutionContext →
    List ToolResult × ToolExecutionContext × Nat
  | 0, _, results, ctx => (results, ctx, 0)
  | remaining + 1, currentResult, results, ctx =>
      let suggestedTools := currentResult.metadata.suggestedTools
      if suggestedTools.isEmpty then
        (results, ctx, 1)
      else
        let filtered := match filterFunc with
          | some f => suggestedTools.filter f
          | none => suggestedTools
        if filtered.isEmpty then
          (results, ctx, 1)
        else
          match dispatchStrategy t strategy filtered ctx with
          | (nextResults, ctx2) =>
              match nextResults.getLast? with
              | none => (results, ctx2, 1)
              | some lastResult =>
                  match executeChainAux t strategy filterFunc remaining lastResult
                      (results ++ nextResults) ctx2 with
                  | (finalResults, ctx3, iters) => (finalResults, ctx3, iters + 1)

/-- ToolChainExecutor.execute_chain, src/tool_execution_engine.py lines
127-168: seed the running output with the initial result, append it to the
context (line 133), then loop. -/
def executeChain (t : Transport) (maxChainLength : Nat) (initialResult : ToolResult)
    (ctx : ToolExecutionContext) (strategy : ExecutionStrategy)
    (filterFunc : Option (SuggestedToolReference → Bool)) :
    List ToolResult × ToolExecutionContext × Nat :=
  executeChainAux t strategy filterFunc maxChainLength initialResult
    [initialResult] (ctx.addResult initialResult)

/-- One workflow step dictionary (src/tool_execution_engine.py lines
266-287): `step.get("required", True)` and `step.get("params", {})` are
resolved to explicit fields. -/
structure WorkflowStep where
  tool : String
  required : Bool
  params : Params

/-- WorkflowEngine._define_workflows, src/tool_execution_engine.py lines
263-288, in dict insertion order. -/
def definedWorkflows : List (String × List WorkflowStep) :=
  [("create_and_setup_repo",
    [⟨"create_repository", true, []⟩,
     ⟨"initialize_repository", true, []⟩,
     ⟨"generate_gitignore", false, []⟩,
     ⟨"add_file", false, [("file_name", Json.str "README.md")]⟩,
     ⟨"commit_changes", true, []⟩,
     ⟨"push_changes", true, []⟩]),
   ("feature_development",
    [⟨"create_branch", true, []⟩,
     ⟨"add_multiple_files", true, []⟩,
     ⟨"commit_changes", true, []⟩,
     ⟨"push_changes", true, []⟩,
     ⟨"create_pull_request", true, []⟩]),
   ("code_review",
    [⟨"list_pull_requests", true, []⟩,
     ⟨"review_changes", true, []⟩,
     ⟨"add_comments", false, []⟩,
     ⟨"approve_pr", true, []⟩,
     ⟨"merge_branches", true, []⟩])]

/-- Python truthiness of a payload value (`if result.payload:`). -/
def payloadTruthy : Json → Bool
  | Json.null => false
  | Json.bool b => b
  | Json.num n => n != 0
  | Json.str s => s != ""
  | Json.arr xs => !xs.isEmpty
  | Json.obj fs => !fs.isEmpty

/-- Model of `params.update(result.payload)` guarded by
`if result.payload:` (src/tool_execution_engine.py lines 313-314).  A
falsy payload leaves params unchanged; a truthy mapping payload merges by
key; a truthy non-mapping payload makes `dict.update` raise, which nothing
in execute_workflow catches (spec section 9 flags this corner as
undefined), so the model reports failure with `none`. -/
def payloadUpdate (params : Params) : Json → Option Params
  | Json.obj fs => if payloadTruthy (Json.obj fs) then some (dictUpdate params fs) else some params
  | p => if payloadTruthy p then none else some params

/-- Outcome of WorkflowEngine.execute_workflow: the two structured report
dictionaries of src/tool_execution_engine.py lines 316-331, plus `raised`
for an exception that leaves the function uncaught (the ValueError of line
294, or a TypeError from `params.update`). -/
inductive WorkflowOutcome where
  | raised (message : String)
  | failed (workflow : String) (failedStep : String)
      (completedSteps : List String) (errors : List ErrorEntry)
  | completed (workflow : String) (stepsExecuted : Nat)
      (results : List ToolResult) (summary : ExecutionSummary)

/-- The step loop of WorkflowEngine.execute_workflow
(src/tool_execution_engine.py lines 300-331): merge accumulated params
with the step overrides (overrides win), invoke the tool, thread a
mapping-shaped payload into params, stop with the failure report on the
first failed required step, skip failed optional steps. -/
def executeWorkflowSteps (t : Transport) (workflowName : String) :
    List WorkflowStep → List ToolResult → Params → ToolExecutionContext →
    WorkflowOutcome × ToolExecutionContext
  | [], results, _, ctx =>
      (.completed workflowName results.length results (getExecutionSummary ctx), ctx)
  | step :: rest, results, params, ctx =>
      let stepParams := dictUpdate params step.params
      match executeTool t step.tool stepParams ctx with
      | (some r, ctx2) =>
          match payloadUpdate params r.payload with
          | none =>
              (.raised "TypeError: params.update on a non-mapping payload", ctx2)
          | some params2 =>
              executeWorkflowSteps t workflowName rest (results ++ [r]) params2 ctx2
      | (none, ctx2) =>
          if step.required then
            (.failed workflowName step.tool (results.map (fun r => r.toolName))
              ctx2.errors, ctx2)
          else
            executeWorkflowSteps t workflowName rest results params ctx2

/-- WorkflowEngine.execute_workflow, src/tool_execution_engine.py lines
290-331.  An unregistered name raises `ValueError(f"Unknown workflow:
{workflow_name}")` (line 294), which no caller in the engine catches. -/
def executeWorkflow (t : Transport) (workflowName : String) (initialParams : Params)
    (ctx : ToolExecutionContext) : WorkflowOutcome × ToolExecutionContext :=
  match List.lookup workflowName definedWorkflows with
  | none => (.raised ("Unknown workflow: " ++ workflowName), ctx)
  | some workflow => executeWorkflowSteps t workflowName workflow [] initialParams ctx

/-- Opaque stand-ins for the fresh identifiers ToolOrchestrator generates
with uuid4 when building a context. -/
def freshConversationId : String := "conv-fresh"

/-- Opaque stand-in for the fresh `session-{uuid4}` identifier. -/
def freshSessionId : String := "session-fresh"

/-- Opaque stand-in for the fresh `exec-{uuid4}` identifier of
ToolExecutionContext.__init__. -/
def freshExecutionId : String := "exec-fresh"

/-- A freshly constructed ToolExecutionContext. -/
def newContext (conversationId userId sessionId : String) : ToolExecutionContext :=
  { conversationId := conversationId, userId := userId, sessionId := sessionId,
    executionId := freshExecutionId, results := [], errors := [] }

/-- Python `value or default` on an optional string: None and "" are both
falsy (the orchestrator computes `conversation_id or f"conv-{uuid4()}"`). -/
def orDefault (s : Option String) (dflt : String) : String :=
  match s with
  | some v => if v = "" then dflt else v
  | none => dflt

/-- ToolOrchestrator.execute_workflow, src/tool_execution_engine.py lines
396-405: build a fresh context and delegate to the workflow engine; the
function installs no exception handler, so a `raised` outcome of the
engine escapes this entry point too. -/
def orchestratorExecuteWorkflow (t : Transport) (workflowName : String)
    (params : Params) (userId : String) (conversationId : Option String) :
    WorkflowOutcome × ToolExecutionContext :=
  executeWorkflow t workflowName params
    (newContext (orDefault conversationId freshConversationId) userId freshSessionId)

/-- The keyword table of IntentClassifier.classify_intent
(src/intent_classification.py lines 489-541), in dict insertion order.
Each tuple key is its list of words; the two plain-string keys
("gitignore") and ("status") are iterated character by character by
`all(keyword in query_lower for keyword in keywords)`, so they contribute
their single-character substrings. -/
def keywordIntentMap : List (List String × String) :=
  [(["create", "repository", "repo"], "create_repository"),
   (["create", "github", "repo"], "create_repository"),
   (["initialize", "git"], "initialize_repository"),
   (["init", "repo"], "initialize_repository"),
   (["clone", "repository"], "clone_repository"),
   (["clone", "github"], "clone_repository"),
   (["create", "branch"], "create_branch"),
   (["new", "branch"], "create_branch"),
   (["list", "branch"], "list_branches"),
   (["show", "branch"], "list_branches"),
   (["merge", "branch"], "merge_branches"),
   (["merge", "into"], "merge_branches"),
   (["add", "file"], "add_file"),
   (["create", "file"], "add_file"),
   (["add", "multiple", "files"], "add_multiple_files"),
   (["add", "files"], "add_multiple_files"),
   (["list", "files"], "list_files"),
   (["show", "files"], "list_files"),
   (["read", "file"], "read_file"),
   (["show", "content"], "read_file"),
   (["g", "i", "t", "i", "g", "n", "o", "r", "e"], "generate_gitignore"),
   (["commit", "change"], "commit_changes"),
   (["commit", "message"], "commit_changes"),
   (["push", "change"], "push_changes"),
   (["push", "github"], "push_changes"),
   (["stage", "all"], "stage_all_changes"),
   (["add", "all"], "stage_all_changes"),
   (["create", "issue"], "create_issue"),
   (["open", "issue"], "create_issue"),
   (["create", "pull", "request"], "create_pull_request"),
   (["create", "pr"], "create_pull_request"),
   (["list", "repo"], "list_repositories"),
   (["show", "repo"], "list_repositories"),
   (["setup", "credential"], "setup_credentials"),
   (["configure", "github"], "setup_credentials"),
   (["set", "credential"], "setup_credentials"),
   (["s", "t", "a", "t", "u", "s"], "check_status"),
   (["git", "status"], "check_status")]

/-- IntentClassifier.classify_intent, src/intent_classification.py lines
479-548: lower the query, return the registry entry of the first table row
all of whose keywords occur in the query. -/
def classifyIntent (userQuery : String) : Option ToolIntent :=
  let queryLower := strLower userQuery
  match keywordIntentMap.find? (fun row => row.1.all (fun k => strContains queryLower k)) with
  | some row => getIntentByName row.2
  | none => none

/-- ToolOrchestrator._extract_parameters, src/tool_execution_engine.py
lines 391-394: the placeholder returns an empty dict. -/
def extractParameters (userRequest : String) (intent : ToolIntent) : Params := []

/-- The status envelope ToolOrchestrator.execute_request returns
(src/tool_execution_engine.py lines 353-389). -/
inductive RequestOutcome where
  | failedNoMatch (error : String) (suggestions : List String)
  | failedInitial (error : String) (context : ExecutionSummary)
  | completed (initialTool : String) (chainExecuted : Bool) (totalTools : Nat)
      (executionSummary : ExecutionSummary) (finalResult : Option ToolResult)

/-- ToolOrchestrator.execute_request, src/tool_execution_engine.py lines
341-389.  The per-request context is created inside the function and
discarded after the envelope is read; the model also returns it, so that
invariants over `context.results` and `context.errors` can be stated. -/
def executeRequest (t : Transport) (userRequest userId : String)
    (conversationId : Option String) :
    RequestOutcome × Option ToolExecutionContext :=
  let ctx := newContext (orDefault conversationId freshConversationId)
    userId freshSessionId
  match classifyIntent userRequest with
  | none =>
      (.failedNoMatch "Could not understand request"
        (INTENT_CLASSIFICATIONS.map (fun p => p.1)), none)
  | some intent =>
      let parameters := extractParameters userRequest intent
      match executeTool t intent.intent_name parameters ctx with
      | (none, ctx1) =>
          (.failedInitial "Initial tool execution failed" (getExecutionSummary ctx1),
            some ctx1)
      | (some initialResult, ctx1) =>
          let ctx2 :=
            if initialResult.metadata.requiresPostProcessing then
              (executeChain t defaultMaxChainLength initialResult ctx1
                ExecutionStrategy.SEQUENTIAL none).2.1
            else ctx1
          (.completed initialResult.toolName (decide (ctx2.results.length > 1))
            ctx2.results.length (getExecutionSummary ctx2) ctx2.getLastResult,
            some ctx2)

/-! Concrete fixtures shared by witnesses and counterexamples. -/

/-- Sample metadata of a terminal result (no post-processing requested). -/
def sampleMetadata : ToolMetadata :=
  { dataType := "application/json", dataSize := 2, intent := "check repository status",
    description := "status checked", accessibility := "public",
    requiresPostProcessing := false, suggestedTools := [], contentSummary := none,
    confidence := 1 }

/-- Sample terminal ToolResult, as a tool endpoint would return it. -/
def sampleResult : ToolResult :=
  { toolResultId := "res-1", toolName := "check_status",
    timestamp := "2024-01-01T00:00:00",
    conversationId := some "conv-1", conversationMessageId := none, userContext := none,
    metadata := sampleMetadata, payload := Json.obj [("clean", Json.bool true)],
    stepIndex := 0, parentToolResultId := none }

/-- Sample non-terminal ToolResult with no follow-up suggestions: it asks
for post-processing but suggests nothing. -/
def chainSeedResult : ToolResult :=
  { toolResultId := "res-init", toolName := "create_repository",
    timestamp := "2024-01-01T00:00:00",
    conversationId := some "conv-1", conversationMessageId := none, userContext := none,
    metadata := { dataType := "application/json", dataSize := 2,
                  intent := "create a repository", description := "repository created",
                  accessibility := "public", requiresPostProcessing := true,
                  suggestedTools := [], contentSummary := none, confidence := 1 },
    payload := Json.obj [("repo_name", Json.str "demo")],
    stepIndex := 0, parentToolResultId := none }

/-- An empty execution context with fixed identifiers. -/
def ctx0 : ToolExecutionContext :=
  newContext "conv-1" "user-1" "session-1"

/-- A transport that answers every call with HTTP 200 and the serialized
`sampleResult`. -/
def transportOk : Transport :=
  fun _ _ _ => .resp 200 sampleResult.toJsonValue ""

/-- A transport that answers every call with HTTP 200 and the serialized
`chainSeedResult`. -/
def transportSeed : Transport :=
  fun _ _ _ => .resp 200 chainSeedResult.toJsonValue ""

/-- A transport that answers every call with HTTP 201 (a 2xx status that is
not 200) and a body that is a perfectly valid serialized ToolResult. -/
def transport201 : Transport :=
  fun _ _ _ => .resp 201 sampleResult.toJsonValue "created"

/-- First suggestion fixture: an eligible Analyzer naming check_status. -/
def suggestionA : SuggestedToolReference :=
  ⟨ToolType.ANALYZER, some "check_status", some "inspect repository state", none, none⟩

/-- Second suggestion fixture: a Retriever naming list_branches. -/
def suggestionB : SuggestedToolReference :=
  ⟨ToolType.RETRIEVER, some "list_branches", some "list branches next", none, none⟩

/-- A Modifier suggestion fixture naming merge_branches. -/
def suggestionModifier : SuggestedToolReference :=
  ⟨ToolType.MODIFIER, some "merge_branches", some "merge after review", none, none⟩

/-- A context whose most recent result is terminal (no post-processing). -/
def ctxTerminal : ToolExecutionContext :=
  ctx0.addResult sampleResult

/-- Workflow step fixture A (required). -/
def stepA : WorkflowStep := ⟨"create_repository", true, []⟩

/-- Workflow step fixture B (required). -/
def stepB : WorkflowStep := ⟨"initialize_repository", true, []⟩

/-- Workflow step fixture C (required). -/
def stepC : WorkflowStep := ⟨"commit_changes", true, []⟩

/-- Result fixture for the first workflow step: an empty mapping payload,
so no parameter threading happens. -/
def wfResultA : ToolResult :=
  { toolResultId := "res-wfa", toolName := "create_repository",
    timestamp := "2024-01-01T00:00:00",
    conversationId := some "conv-1", conversationMessageId := none, userContext := none,
    metadata := sampleMetadata, payload := Json.obj [],
    stepIndex := 0, parentToolResultId := none }

/-- Transport fixture for the workflow witnesses: the repos/init endpoint
fails with HTTP 500, every other endpoint succeeds with `wfResultA`. -/
def transportWf : Transport := fun _ endpoint _ =>
  if endpoint = "/repos/init" then .resp 500 Json.null "server error"
  else .resp 200 wfResultA.toJsonValue ""

/-- The context after the first witness step succeeded and the second
failed: one result, one HTTP error entry. -/
def ctxWfFail : ToolExecutionContext :=
  (ctx0.addResult wfResultA).addError
    (.http "initialize_repository" "HTTP 500" "server error")

/-- ToolResult fixture whose payload is Python None. -/
def nullPayloadResult : ToolResult :=
  { toolResultId := "res-null", toolName := "check_status",
    timestamp := "2024-01-01T00:00:00",
    conversationId := some "conv-1", conversationMessageId := none, userContext := none,
    metadata := sampleMetadata, payload := Json.null,
    stepIndex := 0, parentToolResultId := none }

/-- A transport fixture that raises on every call; the unknown-workflow
path never reaches it. -/
def transportRaises : Transport :=
  fun _ _ _ => .raises "connection refused" "ConnectionError"

/-! Helper lemmas. -/

/-- Every call of `executeTool` either returns a result and appends exactly
that result to the context, or returns none and appends exactly one error
entry naming the tool; there is no third outcome and no partial append. -/
theorem executeTool_step (t : Transport) (toolName : String) (parameters : Params)
    (ctx : ToolExecutionContext) :
    (∃ r, executeTool t toolName parameters ctx = (some r, ctx.addResult r)) ∨
    (∃ e, executeTool t toolName parameters ctx = (none, ctx.addError e) ∧
      e.toolOf = toolName) := by
  unfold executeTool
  split
  · exact Or.inr ⟨_, rfl, rfl⟩
  · split
    · exact Or.inr ⟨_, rfl, rfl⟩
    · split
      · split
        · exact Or.inl ⟨_, rfl⟩
        · exact Or.inr ⟨_, rfl, rfl⟩
      · exact Or.inr ⟨_, rfl, rfl⟩

theorem executeTool_some_eq {t : Transport} {toolName : String} {parameters : Params}
    {ctx ctx2 : ToolExecutionContext} {r : ToolResult}
    (h : executeTool t toolName parameters ctx = (some r, ctx2)) :
    ctx2 = ctx.addResult r := by
  rcases executeTool_step t toolName parameters ctx with ⟨r', hr⟩ | ⟨e, he, _⟩
  · rw [h] at hr
    rw [Prod.mk.injEq] at hr
    obtain ⟨h1, h2⟩ := hr
    rw [Option.some.injEq] at h1
    subst h1
    exact h2
  · rw [h] at he
    simp at he

theorem executeTool_none_eq {t : Transport} {toolName : String} {parameters : Params}
    {ctx ctx2 : ToolExecutionContext}
    (h : executeTool t toolName parameters ctx = (none, ctx2)) :
    ∃ e, ctx2 = ctx.addError e ∧ e.toolOf = toolName := by
  rcases executeTool_step t toolName parameters ctx with ⟨r', hr⟩ | ⟨e, he, htool⟩
  · rw [h] at hr
    simp at hr
  · rw [h] at he
    rw [Prod.mk.injEq] at he
    exact ⟨e, he.2, htool⟩

theorem executeChainAux_iters_le (t : Transport) (strategy : ExecutionStrategy)
    (filterFunc : Option (SuggestedToolReference → Bool)) :
    ∀ (fuel : Nat) (cur : ToolResult) (results : List ToolResult)
      (ctx : ToolExecutionContext),
      (executeChainAux t strategy filterFunc fuel cur results ctx).2.2 ≤ fuel := by
  intro fuel
  induction fuel with
  | zero => intro cur results ctx; simp [executeChainAux]
  | succ m ih =>
    intro cur results ctx
    simp only [executeChainAux]
    split
    · simp
    · split
      · simp
      · split
        · simp
        · simpa using Nat.succ_le_succ (ih _ _ _)

/-- C1: for every transport, strategy, filter predicate, initial result and
context, execute_chain terminates — it is a total function of the model —
and the number of times its loop body is entered never exceeds
`max_chain_length`, in particular never exceeds the default bound 10 set in
ToolChainExecutor.__init__.  The bound is quantified over every transport,
so it covers transports whose results re-suggest the same tools forever
(a suggestion cycle). -/
theorem execute_chain_iteration_bound :
    ∀ (t : Transport) (strategy : ExecutionStrategy)
      (filterFunc : Option (SuggestedToolReference → Bool))
      (initialResult : ToolResult) (ctx : ToolExecutionContext),
      (∀ maxChainLength : Nat,
        (executeChain t maxChainLength initialResult ctx strategy filterFunc).2.2
          ≤ maxChainLength) ∧
      (executeChain t defaultMaxChainLength initialResult ctx strategy
          filterFunc).2.2 ≤ 10 := by
  intro t strategy filterFunc initialResult ctx
  refine ⟨fun maxChainLength => ?_, ?_⟩
  · exact executeChainAux_iters_le t strategy filterFunc maxChainLength initialResult
      [initialResult] (ctx.addResult initialResult)
  · exact executeChainAux_iters_le t strategy filterFunc 10 initialResult
      [initialResult] (ctx.addResult initialResult)

/-- C10: the derived status of every ToolResult is Processing exactly when
its metadata requests post-processing and Complete otherwise; it is never
Failed, so no ToolResult reports itself as failed. -/
theorem tool_result_status_never_failed :
    ∀ r : ToolResult,
      (r.status = ToolExecutionStatus.Processing ↔
        r.metadata.requiresPostProcessing = true) ∧
      (r.status = ToolExecutionStatus.Complete ↔
        r.metadata.requiresPostProcessing = false) ∧
      r.status ≠ ToolExecutionStatus.Failed := by
  intro r
  cases h : r.metadata.requiresPostProcessing <;>
    simp [ToolResult.status, h]

/-- C5: under the Sequential strategy, when the first suggestion of a batch
carries a truthy name hint, its execution succeeds, and the new result does
not request post-processing, then that suggestion is the only one executed
from the batch: the batch result is exactly the one new result and the
context carries exactly the effects of that one call — no later suggestion
is attempted.  Moreover a suggestion with a falsy name hint is skipped
without any effect. -/
theorem sequential_stops_after_terminal :
    (∀ (t : Transport) (a : SuggestedToolReference)
       (rest : List SuggestedToolReference) (ctx ctx2 : ToolExecutionContext)
       (r : ToolResult),
       a.hintString ≠ "" →
       executeTool t a.hintString (a.parameters.getD []) ctx = (some r, ctx2) →
       r.metadata.requiresPostProcessing = false →
       executeSequentialImpl t (a :: rest) ctx = ([r], ctx2)) ∧
    (∀ (t : Transport) (s : SuggestedToolReference)
       (rest : List SuggestedToolReference) (ctx : ToolExecutionContext),
       s.hintString = "" →
       executeSequentialImpl t (s :: rest) ctx = executeSequentialImpl t rest ctx) := by
  constructor
  · intro t a rest ctx ctx2 r hHint hExec hTerm
    unfold executeSequentialImpl
    rw [if_neg hHint, hExec]
    simp [hTerm]
  · intro t s rest ctx h
    conv_lhs => unfold executeSequentialImpl
    rw [if_pos h]

/-- Witness for C5 at concrete inputs: check_status succeeds terminally, so
only the first of the two suggestions executes. -/
theorem sequential_stops_after_terminal_witness :
    executeSequentialImpl transportOk [suggestionA, suggestionB] ctx0
      = ([sampleResult], ctx0.addResult sampleResult) :=
  sequential_stops_after_terminal.1 transportOk suggestionA [suggestionB] ctx0
    (ctx0.addResult sampleResult) sampleResult (by decide) rfl rfl

/-- The parallel task list is exactly the eligible suggestions — type
RETRIEVER or ANALYZER with a truthy name hint — in batch order. -/
theorem buildParallelTasks_eq (sugg : List SuggestedToolReference) :
    buildParallelTasks sugg =
      (sugg.filter (fun s =>
        (s.toolType == ToolType.RETRIEVER || s.toolType == ToolType.ANALYZER)
          && s.hintString != "")).map
        (fun s => (s.hintString, s.parameters.getD [])) := by
  induction sugg with
  | nil => rfl
  | cons s rest ih =>
    unfold buildParallelTasks
    rw [List.filter_cons]
    by_cases h : ((s.toolType == ToolType.RETRIEVER || s.toolType == ToolType.ANALYZER)
        && s.hintString != "") = true
    · rw [if_pos h, if_pos h, List.map_cons, ih]
    · rw [if_neg h, if_neg h, ih]

/-- Gathered tasks append exactly their successful results to the context,
in task order, and every unsuccessful task accounts for exactly one new
error entry: errors grow by the number of dropped outcomes. -/
theorem runGather_spec (t : Transport) :
    ∀ (tasks : List (String × Params)) (ctx : ToolExecutionContext),
      (runGather t tasks ctx).2.results
          = ctx.results ++ (runGather t tasks ctx).1.reduceOption ∧
      (runGather t tasks ctx).2.errors.length
          + (runGather t tasks ctx).1.reduceOption.length
        = ctx.errors.length + tasks.length := by
  intro tasks
  induction tasks with
  | nil => intro ctx; simp [runGather]
  | cons task rest ih =>
    intro ctx
    obtain ⟨name, ps⟩ := task
    simp only [runGather]
    rcases executeTool_step t name ps ctx with ⟨r, hr⟩ | ⟨e, he, _⟩
    · rw [hr]
      obtain ⟨h1, h2⟩ := ih (ctx.addResult r)
      have hres : (ctx.addResult r).results = ctx.results ++ [r] := rfl
      have herr : (ctx.addResult r).errors = ctx.errors := rfl
      rw [hres] at h1
      rw [herr] at h2
      refine ⟨?_, ?_⟩
      · simp only [List.reduceOption_cons_of_some]
        rw [h1, List.append_assoc]
        rfl
      · simp only [List.reduceOption_cons_of_some, List.length_cons]
        omega
    · rw [he]
      obtain ⟨h1, h2⟩ := ih (ctx.addError e)
      have hres : (ctx.addError e).results = ctx.results := rfl
      have herr : (ctx.addError e).errors.length = ctx.errors.length + 1 := by
        simp [ToolExecutionContext.addError]
      rw [hres] at h1
      rw [herr] at h2
      refine ⟨?_, ?_⟩
      · simp only [List.reduceOption_cons_of_none]
        exact h1
      · simp only [List.reduceOption_cons_of_none, List.length_cons]
        omega

/-- C6: under the Parallel strategy the tasks issued are exactly the
suggestions of type Retriever or Analyzer that carry a truthy name hint
(so a Modifier, or any other type, is never invoked); the returned batch
consists of the successful results, appended to the context in order, and
every dropped failure remains recorded in the context as exactly one error
entry: context errors grow by the number of issued tasks that returned no
result. -/
theorem parallel_invokes_exactly_eligible :
    ∀ (t : Transport) (suggestedTools : List SuggestedToolReference)
      (ctx : ToolExecutionContext),
      buildParallelTasks suggestedTools =
        (suggestedTools.filter (fun s =>
          (s.toolType == ToolType.RETRIEVER || s.toolType == ToolType.ANALYZER)
            && s.hintString != "")).map
          (fun s => (s.hintString, s.parameters.getD [])) ∧
      (executeParallelImpl t suggestedTools ctx).2.results
        = ctx.results ++ (executeParallelImpl t suggestedTools ctx).1 ∧
      (executeParallelImpl t suggestedTools ctx).2.errors.length
          + (executeParallelImpl t suggestedTools ctx).1.length
        = ctx.errors.length + (buildParallelTasks suggestedTools).length := by
  intro t suggestedTools ctx
  refine ⟨buildParallelTasks_eq suggestedTools, ?_⟩
  unfold executeParallelImpl
  split
  · rename_i heq
    simp [heq]
  · rename_i task tasks heq
    obtain ⟨h1, h2⟩ := runGather_spec t (task :: tasks) ctx
    rcases hrg : runGather t (task :: tasks) ctx with ⟨os, ctx2⟩
    rw [hrg] at h1 h2
    refine ⟨h1, ?_⟩
    rw [heq]
    show ctx2.errors.length + os.reduceOption.length
      = ctx.errors.length + (task :: tasks).length
    exact h2

/-- C7: the Conditional strategy policy.  A Validator suggestion always
passes the condition; a Modifier suggestion fails it exactly when the
context holds a most recent result that did not request post-processing;
a suggestion of any type other than Modifier always passes.  Dispatch: a
suggestion failing the condition, or carrying a falsy name hint, is
skipped with no effect on context or batch; one that passes with a truthy
hint is executed. -/
theorem conditional_strategy_policy :
    (∀ (s : SuggestedToolReference) (ctx : ToolExecutionContext),
       s.toolType = ToolType.VALIDATOR → evaluateCondition s ctx = true) ∧
    (∀ (s : SuggestedToolReference) (ctx : ToolExecutionContext),
       s.toolType = ToolType.MODIFIER →
       (evaluateCondition s ctx = false ↔
         ∃ lastResult, ctx.getLastResult = some lastResult ∧
           lastResult.metadata.requiresPostProcessing = false)) ∧
    (∀ (s : SuggestedToolReference) (ctx : ToolExecutionContext),
       s.toolType ≠ ToolType.MODIFIER → evaluateCondition s ctx = true) ∧
    (∀ (t : Transport) (s : SuggestedToolReference)
       (rest : List SuggestedToolReference) (ctx : ToolExecutionContext),
       evaluateCondition s ctx = false ∨ s.hintString = "" →
       executeConditionalImpl t (s :: rest) ctx = executeConditionalImpl t rest ctx) ∧
    (∀ (t : Transport) (s : SuggestedToolReference)
       (rest : List SuggestedToolReference) (ctx : ToolExecutionContext),
       evaluateCondition s ctx = true → s.hintString ≠ "" →
       executeConditionalImpl t (s :: rest) ctx =
         match executeTool t s.hintString (s.parameters.getD []) ctx with
         | (some r, ctx2) =>
             (match executeConditionalImpl t rest ctx2 with
              | (rs, ctx3) => (r :: rs, ctx3))
         | (none, ctx2) => executeConditionalImpl t rest ctx2) := by
  refine ⟨?_, ?_, ?_, ?_, ?_⟩
  · intro s ctx hs
    unfold evaluateCondition
    split
    · rfl
    · rw [hs]
      rfl
  · intro s ctx hs
    unfold evaluateCondition
    split
    · rename_i heq
      simp [heq]
    · rename_i lastResult heq
      rw [hs]
      cases hr : lastResult.metadata.requiresPostProcessing <;> simp [heq, hr]
  · intro s ctx hs
    unfold evaluateCondition
    split
    · rfl
    · have hb : (s.toolType == ToolType.MODIFIER) = false := by
        simp [hs]
      rw [hb]
      simp
  · intro t s rest ctx h
    rcases h with h | h <;> simp [executeConditionalImpl, h]
  · intro t s rest ctx hTrue hHint
    simp [executeConditionalImpl, hTrue, hHint]

/-- Witness for C7 at concrete inputs: with a terminal last result, the
Modifier suggestion fails the condition and is skipped without effect. -/
theorem conditional_strategy_policy_witness :
    evaluateCondition suggestionModifier ctxTerminal = false ∧
    executeConditionalImpl transportOk [suggestionModifier] ctxTerminal
      = executeConditionalImpl transportOk [] ctxTerminal :=
  ⟨(conditional_strategy_policy.2.1 suggestionModifier ctxTerminal rfl).mpr
      ⟨sampleResult, rfl, rfl⟩,
   conditional_strategy_policy.2.2.2.1 transportOk suggestionModifier [] ctxTerminal
     (Or.inl ((conditional_strategy_policy.2.1 suggestionModifier ctxTerminal rfl).mpr
       ⟨sampleResult, rfl, rfl⟩))⟩

/-- C8: in the step loop of execute_workflow, for any three required steps
A, B, C, when A succeeds (its payload threaded into the params) and B
fails, the loop stops at B without attempting C and returns the failure
report: status failed, failed step B, completed steps exactly [A], and the
full error log of the context at that point. -/
theorem workflow_required_failure_short_circuit :
    ∀ (t : Transport) (workflowName : String) (a b c : WorkflowStep)
      (params params2 : Params) (ctx ctx1 ctx2 : ToolExecutionContext)
      (rA : ToolResult),
      a.required = true → b.required = true → c.required = true →
      executeTool t a.tool (dictUpdate params a.params) ctx = (some rA, ctx1) →
      payloadUpdate params rA.payload = some params2 →
      executeTool t b.tool (dictUpdate params2 b.params) ctx1 = (none, ctx2) →
      executeWorkflowSteps t workflowName [a, b, c] [] params ctx =
        (.failed workflowName b.tool [rA.toolName] ctx2.errors, ctx2) := by
  intro t workflowName a b c params params2 ctx ctx1 ctx2 rA hA hB hC hExecA hPay hExecB
  conv_lhs => unfold executeWorkflowSteps
  dsimp only
  rw [hExecA]
  dsimp only
  rw [hPay]
  dsimp only
  conv_lhs => unfold executeWorkflowSteps
  dsimp only
  rw [hExecB]
  dsimp only
  rw [hB]
  simp

/-- Reduction of an Except bind on an ok value. -/
theorem exceptOkBind {ε α β : Type} (a : α) (f : α → Except ε β) :
    (Except.ok a >>= f : Except ε β) = f a := rfl

/-- Validation inverts serialization for one suggestion. -/
theorem suggestion_roundtrip (s : SuggestedToolReference) :
    SuggestedToolReference.fromJsonValue s.toJsonValue = .ok s := by
  obtain ⟨tt, hint, reason, ps, lbl⟩ := s
  cases tt <;> cases hint <;> cases reason <;> cases ps <;> cases lbl <;> rfl

/-- Validation inverts serialization for a suggestion list. -/
theorem suggestionList_roundtrip (l : List SuggestedToolReference) :
    decodeSuggestionList (l.map SuggestedToolReference.toJsonValue) = .ok l := by
  induction l with
  | nil => rfl
  | cons s rest ih =>
    simp only [List.map_cons, decodeSuggestionList, suggestion_roundtrip, ih, exceptOkBind]

/-- Validation inverts serialization for a string list. -/
theorem stringList_roundtrip (l : List String) :
    decodeStringList (l.map Json.str) = .ok l := by
  induction l with
  | nil => rfl
  | cons s rest ih =>
    simp only [List.map_cons, decodeStringList, ih, exceptOkBind]

/-- Validation inverts serialization for a ToolMetadata. -/
theorem metadata_roundtrip (m : ToolMetadata) :
    ToolMetadata.fromJsonValue m.toJsonValue = .ok m := by
  obtain ⟨dt, ds, it, de, ac, rpp, sg, cs, cf⟩ := m
  cases cs <;>
    simp [ToolMetadata.toJsonValue, ToolMetadata.fromJsonValue, getField,
      decodeStrD, decodeIntD, decodeReqStr, decodeBoolD, suggestionList_roundtrip,
      ContentSummary.toJsonValue, ContentSummary.fromJsonValue, stringList_roundtrip,
      exceptOkBind, Except.map]

/-- C9 (amended): serializing any ToolResult whose payload is not None and
re-validating the result reconstructs the value field for field — payload,
metadata, and every identifier included.  (When the payload is None,
`exclude_none` omits the required payload field, so re-parsing fails; see
the counterexample.) -/
theorem tool_result_roundtrip :
    ∀ r : ToolResult, r.payload ≠ Json.null →
      ToolResult.fromJsonValue r.toJsonValue = .ok r := by
  intro r hpay
  obtain ⟨tid, tname, ts, cid, cmid, uc, md, pl, si, ptid⟩ := r
  cases pl
  case null => exact absurd rfl hpay
  all_goals
    cases cid <;> cases cmid <;> cases uc <;> cases ptid <;>
      simp [ToolResult.toJsonValue, ToolResult.fromJsonValue, getField,
        decodeStrD, decodeReqStr, decodeOptStr, decodeIntD, metadata_roundtrip,
        UserContextInfo.toJsonValue, UserContextInfo.fromJsonValue,
        exceptOkBind, Except.map]

/-- Witness for C8 at concrete inputs: create_repository succeeds,
initialize_repository fails with HTTP 500, and the loop stops with the
failure report without attempting commit_changes. -/
theorem workflow_required_failure_short_circuit_witness :
    executeWorkflowSteps transportWf "create_and_setup_repo" [stepA, stepB, stepC]
        [] [] ctx0
      = (.failed "create_and_setup_repo" "initialize_repository"
          ["create_repository"] ctxWfFail.errors, ctxWfFail) :=
  workflow_required_failure_short_circuit transportWf "create_and_setup_repo"
    stepA stepB stepC [] [] ctx0 (ctx0.addResult wfResultA) ctxWfFail wfResultA
    rfl rfl rfl rfl rfl rfl

/-- C9 (counterexample to the claim as stated): a ToolResult whose payload
is None does not survive the round trip.  `to_json` serializes with
`exclude_none=True`, which omits the None-valued payload field, and
`from_json` then rejects the document because `payload` is a required
field of the model: re-parsing raises a validation error instead of
yielding an equal ToolResult. -/
theorem tool_result_roundtrip_counterexample :
    ToolResult.fromJsonValue nullPayloadResult.toJsonValue
      = .error "payload: Field required" := rfl

/-- Witness for C9 at a concrete input: a result with a non-None payload
round-trips to an equal value. -/
theorem tool_result_roundtrip_witness :
    sampleResult.payload ≠ Json.null ∧
    ToolResult.fromJsonValue sampleResult.toJsonValue = .ok sampleResult :=
  ⟨fun h => Json.noConfusion h,
   tool_result_roundtrip sampleResult (fun h => Json.noConfusion h)⟩

/-- C2 (code bug exhibit): a successful initial execution is appended to
the context twice.  Under a transport answering HTTP 200 with a valid
non-terminal ToolResult that carries no suggestions, execute_request
classifies the text, runs create_repository once — execute_tool appends
the result — and, since the result asks for post-processing, hands it to
execute_chain, whose `context.add_result(initial_result)` (line 133)
appends the very same result again.  The context therefore lists the one
executed ToolResult twice, and the envelope reports total_tools = 2 and
chain_executed = true although exactly one tool ran and no follow-up tool
was executed. -/
theorem orchestrator_double_appends_initial_result :
    (executeRequest transportSeed "create repository" "user-1" (some "conv-1")).2 =
      some { conversationId := "conv-1", userId := "user-1",
             sessionId := freshSessionId, executionId := freshExecutionId,
             results := [chainSeedResult, chainSeedResult], errors := [] } ∧
    (executeRequest transportSeed "create repository" "user-1" (some "conv-1")).1 =
      .completed "create_repository" true 2
        { executionId := freshExecutionId, conversationId := "conv-1",
          totalToolsExecuted := 2, errors := 0, successful := true,
          toolChain := ["create_repository", "create_repository"] }
        (some chainSeedResult) :=
  ⟨rfl, rfl⟩

/-- C3 (counterexample to the claim as stated): for the unregistered name
no_such_workflow, ToolOrchestrator.execute_workflow does not return a
structured failure report: the ValueError raised at line 294 of
src/tool_execution_engine.py escapes the entry point unhandled — the
outcome is the `raised` constructor, not a `failed` report. -/
theorem unknown_workflow_raises_counterexample :
    (orchestratorExecuteWorkflow transportRaises "no_such_workflow" [] "user-1" none).1
      = .raised "Unknown workflow: no_such_workflow" := rfl

/-- C3 (amended): for every workflow name that is not registered,
execute_workflow raises ValueError("Unknown workflow: name") — leaving the
context untouched — and the orchestrator entry point propagates exactly
that exception to its caller instead of converting it into a structured
failure report. -/
theorem unknown_workflow_raises :
    ∀ (t : Transport) (workflowName : String) (initialParams : Params)
      (ctx : ToolExecutionContext) (userId : String) (conversationId : Option String),
      List.lookup workflowName definedWorkflows = none →
      executeWorkflow t workflowName initialParams ctx =
        (.raised ("Unknown workflow: " ++ workflowName), ctx) ∧
      (orchestratorExecuteWorkflow t workflowName initialParams userId conversationId).1 =
        .raised ("Unknown workflow: " ++ workflowName) := by
  intro t workflowName initialParams ctx userId conversationId h
  constructor
  · unfold executeWorkflow
    rw [h]
  · unfold orchestratorExecuteWorkflow executeWorkflow
    rw [h]

/-- Witness for C3 (amended) at a concrete input. -/
theorem unknown_workflow_raises_witness :
    List.lookup "no_workflow_here" definedWorkflows = none ∧
    executeWorkflow transportRaises "no_workflow_here" [] ctx0 =
      (.raised "Unknown workflow: no_workflow_here", ctx0) :=
  ⟨rfl,
   (unknown_workflow_raises transportRaises "no_workflow_here" [] ctx0 "user-1" none rfl).1⟩

/-- C4 (counterexample to the claim as stated): a transport response with
the 2xx status 201 and a body that is a perfectly valid serialized
ToolResult still produces no result.  execute_tool accepts only exactly
200; for 201 it appends the `{tool, error, details}` entry — which carries
no kind field — returns no result, and the parsed ToolResult is never
constructed. -/
theorem execute_tool_2xx_counterexample :
    executeTool transport201 "check_status" [] ctx0 =
      (none, ctx0.addError (.http "check_status" "HTTP 201" "created")) ∧
    ToolResult.fromJsonValue sampleResult.toJsonValue = .ok sampleResult ∧
    (200 ≤ 201 ∧ 201 < 300) :=
  ⟨rfl, rfl, by decide⟩

/-- C4 (amended): execute_tool returns a constructed-and-appended
ToolResult exactly when the registry knows the tool, the transport answers
with status exactly 200 and the body validates — both directions: a
returned result implies those conditions, and under those conditions the
parsed result is appended to the context and returned.  Otherwise it
returns no result and appends exactly one error entry naming the tool: of
shape {tool, error, details} for a non-200 response (every other 2xx
included), and of shape {tool, error, type} for a raised transport
exception (error = message, type = exception class), an unknown tool
(ValueError) or an invalid body (ValidationError).  Being a total function
of the model, it never propagates an exception to its caller. -/
theorem execute_tool_outcome_characterization :
    ∀ (t : Transport) (toolName : String) (parameters : Params)
      (ctx : ToolExecutionContext),
      (∀ r ctx2, executeTool t toolName parameters ctx = (some r, ctx2) →
        ctx2 = ctx.addResult r ∧
        ∃ intent body text, getIntentByName toolName = some intent ∧
          t intent.method intent.endpoint parameters = .resp 200 body text ∧
          ToolResult.fromJsonValue body = .ok r) ∧
      (∀ ctx2, executeTool t toolName parameters ctx = (none, ctx2) →
        ctx2.results = ctx.results ∧
        ∃ e, ctx2 = ctx.addError e ∧ e.toolOf = toolName) ∧
      (∀ intent status body text, getIntentByName toolName = some intent →
        t intent.method intent.endpoint parameters = .resp status body text →
        status ≠ 200 →
        executeTool t toolName parameters ctx =
          (none, ctx.addError (.http toolName ("HTTP " ++ toString status) text))) ∧
      (∀ intent body text r, getIntentByName toolName = some intent →
        t intent.method intent.endpoint parameters = .resp 200 body text →
        ToolResult.fromJsonValue body = .ok r →
        executeTool t toolName parameters ctx = (some r, ctx.addResult r)) ∧
      (∀ intent message ty, getIntentByName toolName = some intent →
        t intent.method intent.endpoint parameters = .raises message ty →
        executeTool t toolName parameters ctx =
          (none, ctx.addError (.exn toolName message ty))) ∧
      (getIntentByName toolName = none →
        executeTool t toolName parameters ctx =
          (none, ctx.addError
            (.exn toolName ("Unknown tool: " ++ toolName) "ValueError"))) ∧
      (∀ intent body text e, getIntentByName toolName = some intent →
        t intent.method intent.endpoint parameters = .resp 200 body text →
        ToolResult.fromJsonValue body = .error e →
        executeTool t toolName parameters ctx =
          (none, ctx.addError (.exn toolName e "ValidationError"))) := by
  intro t toolName parameters ctx
  refine ⟨?_, ?_, ?_, ?_, ?_, ?_, ?_⟩
  · intro r ctx2 h
    refine ⟨executeTool_some_eq h, ?_⟩
    unfold executeTool at h
    split at h
    · simp at h
    · rename_i intent hI
      split at h
      · simp at h
      · rename_i status body text hT
        split at h
        · rename_i h200
          split at h
          · rename_i r2 hP
            rw [Prod.mk.injEq, Option.some.injEq] at h
            obtain ⟨h1, h2⟩ := h
            subst h1
            exact ⟨intent, body, text, hI, h200 ▸ hT, hP⟩
          · simp at h
        · simp at h
  · intro ctx2 h
    obtain ⟨e, he, htool⟩ := executeTool_none_eq h
    subst he
    exact ⟨rfl, e, rfl, htool⟩
  · intro intent status body text hI hT h200
    unfold executeTool
    rw [hI]
    dsimp only
    rw [hT]
    dsimp only
    rw [if_neg h200]
  · intro intent body text r hI hT hP
    unfold executeTool
    rw [hI]
    dsimp only
    rw [hT]
    dsimp only
    rw [if_pos rfl, hP]
  · intro intent message ty hI hT
    unfold executeTool
    rw [hI]
    dsimp only
    rw [hT]
  · intro hI
    unfold executeTool
    rw [hI]
  · intro intent body text e hI hT hP
    unfold executeTool
    rw [hI]
    dsimp only
    rw [hT]
    dsimp only
    rw [if_pos rfl, hP]

/-- Witness for C4 (amended) at concrete inputs, one per branch: a known
tool with a 200 response and a validating body returns and appends the
parsed result; a raised transport exception appends the {tool, error,
type} entry; an unknown tool appends the ValueError entry; a known tool
with a 500 response appends the {tool, error, details} entry. -/
theorem execute_tool_outcome_characterization_witness :
    (executeTool transportOk "check_status" [] ctx0
      = (some sampleResult, ctx0.addResult sampleResult)) ∧
    (executeTool transportRaises "check_status" [] ctx0
      = (none, ctx0.addError
          (.exn "check_status" "connection refused" "ConnectionError"))) ∧
    (executeTool transportOk "not_a_tool" [] ctx0
      = (none, ctx0.addError
          (.exn "not_a_tool" "Unknown tool: not_a_tool" "ValueError"))) ∧
    (executeTool transportWf "initialize_repository" [] ctx0
      = (none, ctx0.addError
          (.http "initialize_repository" "HTTP 500" "server error"))) :=
  ⟨(execute_tool_outcome_characterization transportOk "check_status" [] ctx0).2.2.2.1
      ⟨"check_status", "/repos/status/{repo_path}", "GET", ToolType.ANALYZER⟩
      sampleResult.toJsonValue "" sampleResult rfl rfl rfl,
   (execute_tool_outcome_characterization transportRaises "check_status" [] ctx0).2.2.2.2.1
      ⟨"check_status", "/repos/status/{repo_path}", "GET", ToolType.ANALYZER⟩
      "connection refused" "ConnectionError" rfl rfl,
   (execute_tool_outcome_characterization transportOk "not_a_tool" [] ctx0).2.2.2.2.2.1
      rfl,
   (execute_tool_outcome_characterization transportWf "initialize_repository" [] ctx0).2.2.1
      ⟨"initialize_repository", "/repos/init", "POST", ToolType.CREATOR⟩
      500 Json.null "server error" rfl rfl (by decide)⟩
